import Mathlib

/-!
Shallow embedding of the device-resolution and container-invocation
assembly pipeline of `start.py`.

External effects are modelled as explicit parameters:
  * `fs : String → Bool` — the host filesystem existence check
    (`os.path.exists`);
  * `udev : String → Option (Nat × String)` — one invocation of
    `udevadm info -q property -n <node>`; `none` models any raised
    exception (node gone, subsystem unavailable), `some (rc, out)` a
    completed call with return code `rc` and stdout `out`
    (`subprocess.run(..., check=True)` raises when `rc ≠ 0`);
  * `home : String` — the current user's home directory
    (`os.path.expanduser`);
  * `envDisplay : Option String` — `os.environ.get('DISPLAY')`;
  * `uid : Nat` — `os.getuid()`;
  * the glob results of `/dev/ttyUSB*` and `/dev/ttyACM*` are a plain
    list parameter.

Host interactions performed during device mapping are recorded as a
`HostOp` trace, and `sys.exit(1)` in normal-mode device failure is
modelled by `Except.error` carrying the failed-device list.
-/

/-- Python truthiness of an `Optional[str]`: `None` and the empty string
are falsy. -/
def strTruthy : Option String → Bool
  | some s => !(s == "")
  | none => false

/-- Python `a or b` on an `Optional[str]` `a` with a string default `b`. -/
def pyOrStr (o : Option String) (d : String) : String :=
  match o with
  | some s => if s == "" then d else s
  | none => d

/-- Python `f"{x}"` applied to an `Optional[str]`: `None` renders as the
string `None`. -/
def pyStrOfOpt : Option String → String
  | none => "None"
  | some s => s

/-- Splitting a character list at every character satisfying `p`,
accumulating the current piece in reverse. -/
def splitPredGo (p : Char → Bool) : List Char → List Char → List String
  | [], acc => [String.mk acc.reverse]
  | x :: xs, acc =>
      if p x then String.mk acc.reverse :: splitPredGo p xs []
      else splitPredGo p xs (x :: acc)

/-- Python `str.split(sep)` for a one-character separator: split at every
occurrence, keeping empty pieces. -/
def splitChar (c : Char) (s : String) : List String :=
  splitPredGo (fun x => x == c) s.data []

/-- Python `str.split()` with no separator: split on whitespace runs,
discarding empty pieces. -/
def pySplit (s : String) : List String :=
  (splitPredGo Char.isWhitespace s.data []).filter (fun t => !(t == ""))

/-- Python `str.strip()`: drop leading and trailing whitespace. -/
def pyStrip (s : String) : String :=
  String.mk (((s.data.dropWhile Char.isWhitespace).reverse.dropWhile Char.isWhitespace).reverse)

/-- Python `os.path.expanduser` restricted to the leading `~` shorthand. -/
def expanduser (home : String) (s : String) : String :=
  if s == "~" then home
  else if ['~', '/'].isPrefixOf s.data then home ++ String.mk (s.data.drop 1)
  else s

/-- `VolumeConfig` of `start.py`. -/
structure VolumeConfig where
  source : String
  target : String
  enabled : Bool := true
  options : String := "rw"
deriving Repr, DecidableEq

/-- `VolumeConfig.expanded_source`. -/
def VolumeConfig.expanded_source (v : VolumeConfig) (home : String) : String :=
  expanduser home v.source

/-- `DeviceConfig` of `start.py`. -/
structure DeviceConfig where
  name : String
  path : Option String := none
  enabled : Bool := true
  options : String := "rw"
  usb_vendor : Option String := none
  usb_product : Option String := none
  usb_interface : Option String := none
  usb_serial : Option String := none
  container_path : Option String := none
deriving Repr, DecidableEq

/-- `DeviceConfig.is_usb_device`: both `usb_vendor` and `usb_product`
are present. -/
def DeviceConfig.is_usb_device (d : DeviceConfig) : Bool :=
  d.usb_vendor.isSome && d.usb_product.isSome

/-- `DeviceConfig.effective_container_path`:
`self.container_path or f"/dev/{self.name}"`. -/
def DeviceConfig.effective_container_path (d : DeviceConfig) : String :=
  pyOrStr d.container_path ("/dev/" ++ d.name)

/-- `ResourceConfig` of `start.py`. -/
structure ResourceConfig where
  network : String := "bridge"
  privileged : Bool := false
  gpu_enabled : Bool := false
  gpu_options : String := "--gpus all"
deriving Repr, DecidableEq

/-- `EnvironmentConfig` of `start.py`. -/
structure EnvironmentConfig where
  ros_domain_id : Int := 0
  ros_localhost_only : Int := 0
  display : String := ":0"
  auto_detect_display : Bool := true
  fallback_displays : List String := [":0", ":1", ":10", ":11", ":99"]
  pulse_server : Option String := none
deriving Repr, DecidableEq

/-- `EnvironmentConfig.get_display`: `os.environ.get('DISPLAY', self.display)`
when auto-detection is on, the configured default otherwise. -/
def EnvironmentConfig.get_display (e : EnvironmentConfig)
    (envDisplay : Option String) : String :=
  if e.auto_detect_display then envDisplay.getD e.display else e.display

/-- `EnvironmentConfig.get_pulse_server`: the configured address when
truthy, otherwise `unix:/run/user/{uid}/pulse/native`. -/
def EnvironmentConfig.get_pulse_server (e : EnvironmentConfig) (uid : Nat) : String :=
  pyOrStr e.pulse_server ("unix:/run/user/" ++ toString uid ++ "/pulse/native")

/-- `DockerCommand` of `start.py`. -/
structure DockerCommand where
  base_cmd : List String := ["docker", "run", "-d"]
  name : Option String := none
  image : Option String := none
  network : Option String := none
  privileged : Bool := false
  gpu_options : Option String := none
  volumes : List String := []
  devices : List String := []
  environment : List String := []
deriving Repr

/-- `DockerCommand.build`, mirroring the sequential `cmd.extend` calls. -/
def DockerCommand.build (c : DockerCommand) : List String :=
  let cmd := c.base_cmd
  let cmd := match c.name with
    | some n => if n == "" then cmd else cmd ++ ["--name", n]
    | none => cmd
  let cmd := match c.network with
    | some n => if n == "" then cmd else cmd ++ ["--network", n]
    | none => cmd
  let cmd := if c.privileged then cmd ++ ["--privileged"] else cmd
  let cmd := match c.gpu_options with
    | some g => if g == "" then cmd else cmd ++ pySplit g
    | none => cmd
  let cmd := cmd ++ c.volumes
  let cmd := cmd ++ c.devices
  let cmd := cmd ++ c.environment
  match c.image with
  | some i => if i == "" then cmd else cmd ++ [i, "tail", "-f", "/dev/null"]
  | none => cmd

/-- Lexicographic comparison of character lists by code point, the order
Python string comparison uses. -/
def charListLe : List Char → List Char → Bool
  | [], _ => true
  | _ :: _, [] => false
  | a :: as, b :: bs =>
      if a.toNat < b.toNat then true
      else if b.toNat < a.toNat then false
      else charListLe as bs

/-- Lexicographic `≤` on strings by code point. -/
def strLeB (a b : String) : Bool := charListLe a.data b.data

/-- Insert a string into a lexicographically ascending list. -/
def insertSorted (x : String) : List String → List String
  | [] => [x]
  | y :: ys => if strLeB x y then x :: y :: ys else y :: insertSorted x ys

/-- Ascending lexicographic sort of a string list (Python `sorted`). -/
def sortStrings : List String → List String
  | [] => []
  | x :: xs => insertSorted x (sortStrings xs)

/-- `TTYDeviceFinder._scan_tty_devices`: the glob results, sorted
lexicographically (Python `sorted`). -/
def scan_tty_devices (globbed : List String) : List String :=
  sortStrings globbed

/-- One `KEY=value` line of `udevadm` output; a line without `=` is
skipped, the value is everything after the first `=`. -/
def parseUdevLine (line : String) : Option (String × String) :=
  match splitChar '=' line with
  | [] => none
  | [_] => none
  | k :: rest => some (k, String.intercalate "=" rest)

/-- `result.stdout.strip().split('\n')` filtered to `KEY=value` lines. -/
def parse_udev_output (out : String) : List (String × String) :=
  (splitChar '\n' (pyStrip out)).filterMap parseUdevLine

/-- Python `dict` built by sequential assignment: a later binding for the
same key wins, `dict.get` of an absent key is `None`. -/
def dictGet (kvs : List (String × String)) (k : String) : Option String :=
  kvs.reverse.lookup k

/-- `TTYDeviceFinder._get_device_info`: parse the property output on a
clean exit, return the empty mapping on a raised exception (`none`) or a
non-zero exit code (`check=True`). -/
def get_device_info (udev : String → Option (Nat × String)) (node : String) :
    List (String × String) :=
  match udev node with
  | none => []
  | some (rc, out) => if rc == 0 then parse_udev_output out else []

/-- A node satisfies a match request: vendor id and product id match
exactly, and each supplied optional filter (interface number, serial)
matches exactly. -/
def matchesAll (info : String → List (String × String)) (v p : String)
    (iface ser : Option String) (node : String) : Bool :=
  let di := info node
  (dictGet di "ID_VENDOR_ID" == some v) && (dictGet di "ID_MODEL_ID" == some p)
    && (match iface with
        | none => true
        | some i => dictGet di "ID_USB_INTERFACE_NUM" == some i)
    && (match ser with
        | none => true
        | some s => dictGet di "ID_SERIAL" == some s)

/-- `TTYDeviceFinder.find_by_usb_id`'s loop, additionally returning the
nodes whose identity was queried (the loop calls `_get_device_info` on
every node it visits, stopping at the first full match). -/
def find_by_usb_id_run (info : String → List (String × String)) (v p : String)
    (iface ser : Option String) : List String → List String × Option String
  | [] => ([], none)
  | node :: rest =>
      let di := info node
      if dictGet di "ID_VENDOR_ID" == some v && dictGet di "ID_MODEL_ID" == some p then
        if iface.isSome && !(dictGet di "ID_USB_INTERFACE_NUM" == iface) then
          let r := find_by_usb_id_run info v p iface ser rest
          (node :: r.1, r.2)
        else if ser.isSome && !(dictGet di "ID_SERIAL" == ser) then
          let r := find_by_usb_id_run info v p iface ser rest
          (node :: r.1, r.2)
        else ([node], some node)
      else
        let r := find_by_usb_id_run info v p iface ser rest
        (node :: r.1, r.2)

/-- `TTYDeviceFinder.find_by_usb_id`: the optional node result. -/
def find_by_usb_id (info : String → List (String × String)) (v p : String)
    (iface ser : Option String) (nodes : List String) : Option String :=
  (find_by_usb_id_run info v p iface ser nodes).2

/-- `DeviceMapper.map_usb_device` with its query trace: `None` unless the
spec is USB-kind, otherwise the matcher result. -/
def map_usb_device_run (info : String → List (String × String))
    (inv : List String) (d : DeviceConfig) : List String × Option String :=
  match d.usb_vendor, d.usb_product with
  | some v, some p => find_by_usb_id_run info v p d.usb_interface d.usb_serial inv
  | _, _ => ([], none)

/-- `DeviceMapper.map_usb_device`. -/
def map_usb_device (info : String → List (String × String))
    (inv : List String) (d : DeviceConfig) : Option String :=
  (map_usb_device_run info inv d).2

/-- A host interaction performed while mapping devices. -/
inductive HostOp where
  | existsCheck : String → HostOp
  | udevQuery : String → HostOp
deriving Repr, DecidableEq

/-- Outcome of the `map_devices` loop body for one enabled spec: the host
operations it performed, the `(device, tty_device, arg)` triple appended
to `mapped_devices`, and the `(name, error)` pair appended to
`failed_devices` (if any). -/
structure StepResult where
  ops : List HostOp
  entry : DeviceConfig × Option String × String
  failure : Option (String × String)
deriving Repr, DecidableEq

/-- The body of `DeviceMapper.map_devices`'s loop for one enabled spec. -/
def map_device_step (fs : String → Bool) (udev : String → Option (Nat × String))
    (inv : List String) (d : DeviceConfig) : StepResult :=
  if d.is_usb_device then
    let r := map_usb_device_run (get_device_info udev) inv d
    if strTruthy r.2 then
      { ops := r.1.map HostOp.udevQuery
        entry := (d, r.2, (r.2.getD "") ++ ":" ++ d.effective_container_path ++ ":rw")
        failure := none }
    else
      let msg := "未找到USB设备 " ++ pyStrOfOpt d.usb_vendor ++ ":" ++ pyStrOfOpt d.usb_product
      { ops := r.1.map HostOp.udevQuery
        entry := (d, none, msg)
        failure := some (d.name, msg) }
  else if strTruthy d.path then
    if fs (d.path.getD "") then
      { ops := [HostOp.existsCheck (d.path.getD "")]
        entry := (d, d.path, (d.path.getD "") ++ ":" ++ d.options)
        failure := none }
    else
      let msg := "设备路径不存在: " ++ pyStrOfOpt d.path
      { ops := [HostOp.existsCheck (d.path.getD "")]
        entry := (d, none, msg)
        failure := some (d.name, msg) }
  else
    let msg := "设备路径不存在: " ++ pyStrOfOpt d.path
    { ops := [], entry := (d, none, msg), failure := some (d.name, msg) }

/-- Accumulated state of `map_devices`'s loop over the spec list. -/
structure MapLoopResult where
  ops : List HostOp
  failed : List (String × String)
  mapped : List (DeviceConfig × Option String × String)
deriving Repr, DecidableEq

/-- The loop of `DeviceMapper.map_devices`: disabled specs are skipped
(`continue`) before any host interaction. -/
def map_devices_loop (fs : String → Bool) (udev : String → Option (Nat × String))
    (inv : List String) : List DeviceConfig → MapLoopResult
  | [] => { ops := [], failed := [], mapped := [] }
  | d :: rest =>
      if d.enabled then
        let s := map_device_step fs udev inv d
        let r := map_devices_loop fs udev inv rest
        { ops := s.ops ++ r.ops
          failed := match s.failure with
            | some f => f :: r.failed
            | none => r.failed
          mapped := s.entry :: r.mapped }
      else
        map_devices_loop fs udev inv rest

/-- Result of `DeviceMapper.map_devices`: the host operations performed,
the lines printed/logged for the failure report, and either the full
mapped list or — normal mode with failures — the `sys.exit(1)` path,
modelled as `Except.error` carrying the failed devices. -/
structure MapDevicesResult where
  ops : List HostOp
  report : List String
  result : Except (List (String × String)) (List (DeviceConfig × Option String × String))
deriving Repr

/-- `DeviceMapper.map_devices`. -/
def map_devices (dryRun : Bool) (fs : String → Bool)
    (udev : String → Option (Nat × String)) (inv : List String)
    (devices : List DeviceConfig) : MapDevicesResult :=
  let r := map_devices_loop fs udev inv devices
  if r.failed.isEmpty then
    { ops := r.ops, report := [], result := Except.ok r.mapped }
  else if dryRun then
    { ops := r.ops
      report := r.failed.map (fun pr => "✗ " ++ pr.1)
      result := Except.ok r.mapped }
  else
    { ops := r.ops
      report := ["未找到所有必需的设备，无法启动容器"]
        ++ r.failed.map (fun pr => "  缺失设备: " ++ pr.1 ++ " - " ++ pr.2)
        ++ ["\n按任意键退出..."]
      result := Except.error r.failed }

/-- The `--device` pairs `DockerRunner._build_device_args` collects from
the mapped triples: one pair per triple whose node is truthy. -/
def device_args_of (mapped : List (DeviceConfig × Option String × String)) : List String :=
  mapped.flatMap (fun e => if strTruthy e.2.1 then ["--device", e.2.2] else [])

/-- `DockerRunner._build_device_args`; iterating the `map_devices`
generator hits `sys.exit(1)` in normal mode when any device failed, so
the error propagates. -/
def build_device_args (dryRun : Bool) (fs : String → Bool)
    (udev : String → Option (Nat × String)) (inv : List String)
    (devices : List DeviceConfig) : Except (List (String × String)) (List String) :=
  (map_devices dryRun fs udev inv devices).result.map device_args_of

/-- `DockerRunner._build_volume_args`: one `-v` pair per enabled volume. -/
def build_volume_args (home : String) (volumes : List VolumeConfig) : List String :=
  volumes.flatMap (fun v =>
    if v.enabled then ["-v", v.expanded_source home ++ ":" ++ v.target ++ ":" ++ v.options]
    else [])

/-- `DockerRunner._build_environment_args`. -/
def build_environment_args (envDisplay : Option String) (uid : Nat)
    (e : EnvironmentConfig) : List String :=
  ["-e", "ROS_DOMAIN_ID=" ++ toString e.ros_domain_id,
   "-e", "ROS_LOCALHOST_ONLY=" ++ toString e.ros_localhost_only,
   "-e", "DISPLAY=" ++ e.get_display envDisplay,
   "-e", "PULSE_SERVER=" ++ e.get_pulse_server uid]

/-- `DockerRunner._build_docker_command` followed by `DockerCommand.build`
(as performed in `DockerRunner.run`); the normal-mode device-failure exit
propagates as `Except.error`. -/
def build_docker_command (dryRun : Bool) (home : String) (envDisplay : Option String)
    (uid : Nat) (fs : String → Bool) (udev : String → Option (Nat × String))
    (inv : List String) (res : ResourceConfig) (envc : EnvironmentConfig)
    (volumes : List VolumeConfig) (devices : List DeviceConfig)
    (container_name image_name : String) :
    Except (List (String × String)) (List String) :=
  match build_device_args dryRun fs udev inv devices with
  | Except.error e => Except.error e
  | Except.ok devArgs =>
      Except.ok (DockerCommand.build
        { name := some container_name
          image := some image_name
          network := if res.network == "bridge" then none else some res.network
          privileged := res.privileged
          gpu_options := if res.gpu_enabled then some res.gpu_options else none
          volumes := build_volume_args home volumes
          devices := devArgs
          environment := build_environment_args envDisplay uid envc })

/-- The raw `environment:` section of the configuration document, as the
keys a document may declare there; `none` is an absent key. -/
structure RawEnvironment where
  ros_domain_id : Option Int := none
  ros_localhost_only : Option Int := none
  display : Option String := none
  auto_detect_display : Option Bool := none
  fallback_displays : Option (List String) := none
  pulse_server : Option String := none
deriving Repr, DecidableEq

/-- `ConfigLoader.parse_environment`: only `DISPLAY`,
`auto_detect_display`, `fallback_displays` and `PULSE_SERVER` are read
from the document; the ROS fields are left at their dataclass defaults. -/
def parse_environment (envOpt : Option RawEnvironment) : EnvironmentConfig :=
  let env := envOpt.getD {}
  { display := env.display.getD ":0"
    auto_detect_display := env.auto_detect_display.getD true
    fallback_displays := env.fallback_displays.getD [":0", ":1", ":10", ":11", ":99"]
    pulse_server := env.pulse_server }

/-! ### Shape of the assembled command -/

/-- Tokens contributed by a truthy optional string flag value. -/
def optFlagArgs (flag : String) (o : Option String) : List String :=
  match o with
  | some s => if s == "" then [] else [flag, s]
  | none => []

/-- Tokens contributed by a truthy GPU option string. -/
def gpuArgs : Option String → List String
  | some g => if g == "" then [] else pySplit g
  | none => []

/-- Tokens contributed by a truthy image reference: the reference and the
keep-alive entry command. -/
def imageArgs : Option String → List String
  | some i => if i == "" then [] else [i, "tail", "-f", "/dev/null"]
  | none => []

/-! ### Shape of the assembled command -/

/-- `DockerCommand.build` in flat-concatenation normal form, exhibiting
the fixed structural order of the assembled command. -/
theorem DockerCommand.build_eq (c : DockerCommand) :
    c.build = c.base_cmd ++ optFlagArgs "--name" c.name ++ optFlagArgs "--network" c.network
      ++ (if c.privileged then ["--privileged"] else []) ++ gpuArgs c.gpu_options
      ++ c.volumes ++ c.devices ++ c.environment ++ imageArgs c.image := by
  cases hn : c.name <;> cases hw : c.network <;> cases hp : c.privileged <;>
    cases hg : c.gpu_options <;> cases hi : c.image <;>
      simp only [DockerCommand.build, optFlagArgs, gpuArgs, imageArgs, hn, hw, hp, hg, hi,
        Bool.false_eq_true, if_false, if_true, List.append_nil, List.nil_append] <;>
      split_ifs <;> simp [List.append_assoc]

/-- C8: Command assembly is deterministic with the fixed structural order
base run flags, name, network flag, privileged flag, GPU option tokens,
volume flags, device flags, environment flags, image reference,
keep-alive entry command. `DockerCommand.build` is a pure function of the
resolved inputs, so two invocations on the same resolved inputs are the
same term and produce identical argument sequences; the proved normal
form fixes the structural order. -/
theorem c8_assemble_fixed_order (c : DockerCommand) :
    c.build = c.base_cmd ++ optFlagArgs "--name" c.name ++ optFlagArgs "--network" c.network
      ++ (if c.privileged then ["--privileged"] else []) ++ gpuArgs c.gpu_options
      ++ c.volumes ++ c.devices ++ c.environment ++ imageArgs c.image :=
  DockerCommand.build_eq c

/-- C7 (amended): a configured non-empty audio-server address is returned
unchanged; an absent or empty configured address derives
`unix:/run/user/{uid}/pulse/native`, in particular exactly
`unix:/run/user/1000/pulse/native` for user id 1000. -/
theorem c7_pulse_server_amended (e : EnvironmentConfig) (uid : Nat) :
    (∀ s, e.pulse_server = some s → s ≠ "" → e.get_pulse_server uid = s)
    ∧ ((e.pulse_server = none ∨ e.pulse_server = some "") →
        e.get_pulse_server uid = "unix:/run/user/" ++ toString uid ++ "/pulse/native")
    ∧ (e.pulse_server = none → e.get_pulse_server 1000 = "unix:/run/user/1000/pulse/native") := by
  refine ⟨?_, ?_, ?_⟩
  · intro s hs hne
    simp [EnvironmentConfig.get_pulse_server, pyOrStr, hs, hne]
  · rintro (h | h) <;> simp [EnvironmentConfig.get_pulse_server, pyOrStr, h]
  · intro h
    simp only [EnvironmentConfig.get_pulse_server, pyOrStr, h]
    rfl

/-- C7 witness: a concrete non-empty configured address is returned
unchanged, and an absent one derives the uid-1000 default. -/
theorem c7_pulse_server_witness :
    ({ pulse_server := some "tcp:host:4713" } : EnvironmentConfig).get_pulse_server 1000
        = "tcp:host:4713"
    ∧ ({} : EnvironmentConfig).get_pulse_server 1000 = "unix:/run/user/1000/pulse/native" :=
  ⟨(c7_pulse_server_amended { pulse_server := some "tcp:host:4713" } 1000).1
      "tcp:host:4713" rfl (by decide),
   (c7_pulse_server_amended {} 1000).2.2 rfl⟩

/-- C7 counterexample: with the audio-server address configured as the
empty string, the claim requires the configured address back unchanged,
but the code falls through Python truthiness to the uid-derived default. -/
theorem c7_counterexample :
    ({ pulse_server := some "" } : EnvironmentConfig).pulse_server = some ""
    ∧ ({ pulse_server := some "" } : EnvironmentConfig).get_pulse_server 1000
        = "unix:/run/user/1000/pulse/native"
    ∧ ({ pulse_server := some "" } : EnvironmentConfig).get_pulse_server 1000 ≠ "" :=
  ⟨rfl, rfl, by decide⟩

/-- C9: when the property-subsystem invocation fails in any way — a
raised exception (`none`) or a non-zero exit code — the identity lookup
returns the empty property mapping, and such a node never satisfies any
match request downstream. -/
theorem c9_identify_error_empty (udev : String → Option (Nat × String)) (node : String)
    (h : udev node = none ∨ ∃ rc out, udev node = some (rc, out) ∧ rc ≠ 0) :
    get_device_info udev node = []
    ∧ ∀ v p iface ser, matchesAll (get_device_info udev) v p iface ser node = false := by
  have hempty : get_device_info udev node = [] := by
    rcases h with h | ⟨rc, out, h, hrc⟩
    · simp [get_device_info, h]
    · simp [get_device_info, h, hrc]
  refine ⟨hempty, ?_⟩
  intro v p iface ser
  simp [matchesAll, hempty, dictGet]

/-- C9 witness: a non-zero exit of the property lookup yields the empty
mapping and no match for a concrete request. -/
theorem c9_identify_error_empty_witness :
    get_device_info (fun _ => some (1, "ID_VENDOR_ID=10c4")) "/dev/ttyUSB0" = []
    ∧ matchesAll (get_device_info (fun _ => some (1, "ID_VENDOR_ID=10c4")))
        "10c4" "ea60" none none "/dev/ttyUSB0" = false :=
  ⟨(c9_identify_error_empty (fun _ => some (1, "ID_VENDOR_ID=10c4")) "/dev/ttyUSB0"
      (Or.inr ⟨1, "ID_VENDOR_ID=10c4", rfl, by decide⟩)).1,
   (c9_identify_error_empty (fun _ => some (1, "ID_VENDOR_ID=10c4")) "/dev/ttyUSB0"
      (Or.inr ⟨1, "ID_VENDOR_ID=10c4", rfl, by decide⟩)).2 "10c4" "ea60" none none⟩

/-! ### Device mapping engine -/

/-- Every enabled spec's failure pair reaches the accumulated failed list. -/
theorem mem_failed_of_step (fs : String → Bool) (udev : String → Option (Nat × String))
    (inv : List String) :
    ∀ (devices : List DeviceConfig) (d : DeviceConfig), d ∈ devices → d.enabled = true →
      ∀ pr, (map_device_step fs udev inv d).failure = some pr →
        pr ∈ (map_devices_loop fs udev inv devices).failed := by
  intro devices
  induction devices with
  | nil => intro d hmem; cases hmem
  | cons a rest ih =>
      intro d hmem hen pr hpr
      rcases List.mem_cons.mp hmem with heq | hmem2
      · subst heq
        simp only [map_devices_loop, hen, if_true, hpr]
        exact List.mem_cons_self ..
      · cases hena : a.enabled
        · simp only [map_devices_loop, hena, Bool.false_eq_true, if_false]
          exact ih d hmem2 hen pr hpr
        · simp only [map_devices_loop, hena, if_true]
          cases hfa : (map_device_step fs udev inv a).failure
          · simpa using ih d hmem2 hen pr hpr
          · simp only []
            exact List.mem_cons_of_mem _ (ih d hmem2 hen pr hpr)

/-- C1 (amended): for every enabled USB-kind device spec that the matcher
resolves to a truthy host node, the Device Mapping Engine produces the
triple pairing the node with the device-argument string
`{node}:{effective_container_path}:rw` — the literal mount options `rw`
(the spec's `options` field is not consulted for USB devices), with the
effective container path taken as `container_path` when that is set and
non-empty, `/dev/{name}` otherwise. -/
theorem c1_usb_mapping_amended (fs : String → Bool) (udev : String → Option (Nat × String))
    (inv : List String) (devices : List DeviceConfig) (d : DeviceConfig) (tty : String)
    (hmem : d ∈ devices) (hen : d.enabled = true) (husb : d.is_usb_device = true)
    (hfind : map_usb_device (get_device_info udev) inv d = some tty) (hne : tty ≠ "") :
    (d, some tty, tty ++ ":" ++ d.effective_container_path ++ ":rw")
      ∈ (map_devices_loop fs udev inv devices).mapped := by
  induction devices with
  | nil => cases hmem
  | cons a rest ih =>
      rcases List.mem_cons.mp hmem with heq | hmem2
      · subst heq
        have hr : (map_usb_device_run (get_device_info udev) inv d).2 = some tty := hfind
        simp only [map_devices_loop, hen, if_true]
        have hstep : (map_device_step fs udev inv d).entry
            = (d, some tty, tty ++ ":" ++ d.effective_container_path ++ ":rw") := by
          simp [map_device_step, husb, hr, strTruthy, hne]
        rw [← hstep]
        exact List.mem_cons_self ..
      · cases hena : a.enabled
        · simp only [map_devices_loop, hena, Bool.false_eq_true, if_false]
          exact ih hmem2
        · simp only [map_devices_loop, hena, if_true]
          exact List.mem_cons_of_mem _ (ih hmem2)

/-- C1 counterexample: a USB-kind spec with mount options `ro` and
container path configured as the empty string. The claim predicts the
device-argument string `/dev/ttyUSB0::ro` (configured container path and
the spec's options); the code produces `/dev/ttyUSB0:/dev/lidar:rw` — the
options field is ignored in favour of the literal `rw`, and the empty
configured container path falls through Python truthiness to
`/dev/{name}`. -/
theorem c1_counterexample :
    (map_devices false (fun _ => false)
        (fun n => if n == "/dev/ttyUSB0"
          then some (0, "ID_VENDOR_ID=10c4\nID_MODEL_ID=ea60") else none)
        ["/dev/ttyUSB0"]
        [{ name := "lidar", options := "ro", usb_vendor := some "10c4",
                            usb_product := some "ea60", container_path := some "" }]).result
      = Except.ok [({ name := "lidar", options := "ro", usb_vendor := some "10c4",
                                       usb_product := some "ea60", container_path := some "" },
          some "/dev/ttyUSB0", "/dev/ttyUSB0:/dev/lidar:rw")]
    ∧ ("/dev/ttyUSB0:/dev/lidar:rw" : String) ≠ "/dev/ttyUSB0::ro" :=
  ⟨rfl, by decide⟩

/-- C1 witness: the spec's own scenario — a `lidar` spec `10c4:ea60`
against an inventory holding `/dev/ttyUSB0` with that identity — yields
the mapping triple with argument `/dev/ttyUSB0:/dev/lidar:rw`. -/
theorem c1_usb_mapping_witness :
    ({ name := "lidar", usb_vendor := some "10c4", usb_product := some "ea60" },
          some "/dev/ttyUSB0", "/dev/ttyUSB0:/dev/lidar:rw")
      ∈ (map_devices_loop (fun _ => false)
          (fun n => if n == "/dev/ttyUSB0"
            then some (0, "ID_VENDOR_ID=10c4\nID_MODEL_ID=ea60") else none)
          ["/dev/ttyUSB0"]
          [{ name := "lidar", usb_vendor := some "10c4", usb_product := some "ea60" }]).mapped :=
  c1_usb_mapping_amended (fun _ => false)
    (fun n => if n == "/dev/ttyUSB0"
      then some (0, "ID_VENDOR_ID=10c4\nID_MODEL_ID=ea60") else none)
    ["/dev/ttyUSB0"]
    [{ name := "lidar", usb_vendor := some "10c4", usb_product := some "ea60" }]
    { name := "lidar", usb_vendor := some "10c4", usb_product := some "ea60" }
    "/dev/ttyUSB0" (List.mem_singleton.mpr rfl) rfl rfl rfl (by decide)

/-- C2: in normal (non-dry-run) mode, if any enabled device fails to
resolve, the mapping engine takes the `sys.exit(1)` path — modelled as
`Except.error` carrying the failed list — so no launch command is
assembled (the assembler pipeline propagates the same error instead of a
command) and the process terminates with a non-zero exit status; the
name and failure reason of every failed enabled device is emitted in the
report before exit. -/
theorem c2_fail_closed (home : String) (envDisplay : Option String) (uid : Nat)
    (fs : String → Bool) (udev : String → Option (Nat × String)) (inv : List String)
    (res : ResourceConfig) (envc : EnvironmentConfig) (volumes : List VolumeConfig)
    (devices : List DeviceConfig) (cname iname : String)
    (h : ∃ d ∈ devices, d.enabled = true ∧ (map_device_step fs udev inv d).failure.isSome = true) :
    (map_devices false fs udev inv devices).result
        = Except.error (map_devices_loop fs udev inv devices).failed
    ∧ (map_devices_loop fs udev inv devices).failed ≠ []
    ∧ (∀ d ∈ devices, d.enabled = true →
        ∀ nm msg, (map_device_step fs udev inv d).failure = some (nm, msg) →
          (nm, msg) ∈ (map_devices_loop fs udev inv devices).failed
          ∧ ("  缺失设备: " ++ nm ++ " - " ++ msg)
              ∈ (map_devices false fs udev inv devices).report)
    ∧ build_docker_command false home envDisplay uid fs udev inv res envc volumes
        devices cname iname
        = Except.error (map_devices_loop fs udev inv devices).failed := by
  obtain ⟨d0, hd0mem, hd0en, hd0fail⟩ := h
  obtain ⟨pr0, hpr0⟩ := Option.isSome_iff_exists.mp hd0fail
  have hne : (map_devices_loop fs udev inv devices).failed ≠ [] :=
    List.ne_nil_of_mem (mem_failed_of_step fs udev inv devices d0 hd0mem hd0en pr0 hpr0)
  have hempty : (map_devices_loop fs udev inv devices).failed.isEmpty = false := by
    simpa [List.isEmpty_iff] using hne
  have hres : (map_devices false fs udev inv devices).result
      = Except.error (map_devices_loop fs udev inv devices).failed := by
    simp [map_devices, hempty]
  have hrep : (map_devices false fs udev inv devices).report
      = ["未找到所有必需的设备，无法启动容器"]
        ++ (map_devices_loop fs udev inv devices).failed.map
            (fun pr => "  缺失设备: " ++ pr.1 ++ " - " ++ pr.2)
        ++ ["\n按任意键退出..."] := by
    simp [map_devices, hempty]
  refine ⟨hres, hne, ?_, ?_⟩
  · intro d hdm hden nm msg hf
    have hmemf := mem_failed_of_step fs udev inv devices d hdm hden (nm, msg) hf
    refine ⟨hmemf, ?_⟩
    rw [hrep]
    refine List.mem_append.mpr (Or.inl (List.mem_append.mpr (Or.inr ?_)))
    exact List.mem_map.mpr ⟨(nm, msg), hmemf, rfl⟩
  · unfold build_docker_command build_device_args
    rw [hres]
    rfl

/-- C2 witness: one enabled static-path device whose path does not exist
aborts the normal-mode pipeline with its name and reason. -/
theorem c2_fail_closed_witness :
    (map_devices false (fun _ => false) (fun _ => none) []
        [{ name := "cam", path := some "/dev/video9" }]).result
      = Except.error (map_devices_loop (fun _ => false) (fun _ => none) []
          [{ name := "cam", path := some "/dev/video9" }]).failed
    ∧ build_docker_command false "" none 0 (fun _ => false) (fun _ => none) [] {} {} []
        [{ name := "cam", path := some "/dev/video9" }] "c" "i"
      = Except.error (map_devices_loop (fun _ => false) (fun _ => none) []
          [{ name := "cam", path := some "/dev/video9" }]).failed :=
  ⟨(c2_fail_closed "" none 0 (fun _ => false) (fun _ => none) [] {} {} []
      [{ name := "cam", path := some "/dev/video9" }] "c" "i"
      ⟨{ name := "cam", path := some "/dev/video9" }, List.mem_singleton.mpr rfl, rfl, rfl⟩).1,
   (c2_fail_closed "" none 0 (fun _ => false) (fun _ => none) [] {} {} []
      [{ name := "cam", path := some "/dev/video9" }] "c" "i"
      ⟨{ name := "cam", path := some "/dev/video9" }, List.mem_singleton.mpr rfl, rfl, rfl⟩).2.2.2⟩

/-- `_build_device_args` keeps one `--device` pair for exactly the
triples whose node is truthy. -/
theorem device_args_of_eq_filter (mapped : List (DeviceConfig × Option String × String)) :
    device_args_of mapped
      = (mapped.filter (fun e => strTruthy e.2.1)).flatMap (fun e => ["--device", e.2.2]) := by
  induction mapped with
  | nil => rfl
  | cons e rest ih =>
      simp only [device_args_of, List.flatMap_cons, List.filter_cons] at ih ⊢
      cases he : strTruthy e.2.1
      · simp [he, ih]
      · simp [he, ih]

/-- C3: in dry-run mode the run never aborts — the mapping result is a
success carrying every processed triple, the `--device` pairs of the
assembled command cover exactly the resolved subset, each failed device
is reported compactly by name only (`✗ {name}`), and a full command is
still assembled. -/
theorem c3_dry_run_fail_open (home : String) (envDisplay : Option String) (uid : Nat)
    (fs : String → Bool) (udev : String → Option (Nat × String)) (inv : List String)
    (res : ResourceConfig) (envc : EnvironmentConfig) (volumes : List VolumeConfig)
    (devices : List DeviceConfig) (cname iname : String) :
    (map_devices true fs udev inv devices).result
        = Except.ok (map_devices_loop fs udev inv devices).mapped
    ∧ build_device_args true fs udev inv devices
        = Except.ok (((map_devices_loop fs udev inv devices).mapped.filter
              (fun e => strTruthy e.2.1)).flatMap (fun e => ["--device", e.2.2]))
    ∧ (map_devices true fs udev inv devices).report
        = (map_devices_loop fs udev inv devices).failed.map (fun pr => "✗ " ++ pr.1)
    ∧ (∃ cmd, build_docker_command true home envDisplay uid fs udev inv res envc volumes
          devices cname iname = Except.ok cmd) := by
  have hres : (map_devices true fs udev inv devices).result
      = Except.ok (map_devices_loop fs udev inv devices).mapped := by
    cases hE : (map_devices_loop fs udev inv devices).failed.isEmpty <;> simp [map_devices, hE]
  have hrep : (map_devices true fs udev inv devices).report
      = (map_devices_loop fs udev inv devices).failed.map (fun pr => "✗ " ++ pr.1) := by
    cases hE : (map_devices_loop fs udev inv devices).failed.isEmpty
    · simp [map_devices, hE]
    · have h0 : (map_devices_loop fs udev inv devices).failed = [] := List.isEmpty_iff.mp hE
      simp [map_devices, hE, h0]
  have hdev : build_device_args true fs udev inv devices
      = Except.ok (((map_devices_loop fs udev inv devices).mapped.filter
            (fun e => strTruthy e.2.1)).flatMap (fun e => ["--device", e.2.2])) := by
    unfold build_device_args
    rw [hres]
    simp [Except.map, device_args_of_eq_filter]
  refine ⟨hres, hdev, hrep, ?_⟩
  unfold build_docker_command
  rw [hdev]
  exact ⟨_, rfl⟩

/-- Inserting a disabled spec anywhere leaves the device-mapping loop —
host operations, failures and mapped triples alike — unchanged. -/
theorem map_devices_loop_disabled (fs : String → Bool)
    (udev : String → Option (Nat × String)) (inv : List String) (d : DeviceConfig)
    (hd : d.enabled = false) :
    ∀ pre post, map_devices_loop fs udev inv (pre ++ d :: post)
      = map_devices_loop fs udev inv (pre ++ post) := by
  intro pre
  induction pre with
  | nil =>
      intro post
      simp [map_devices_loop, hd]
  | cons a pre ih =>
      intro post
      simp only [List.cons_append, map_devices_loop, List.append_eq]
      rw [ih post]

/-- C6: a disabled volume or device spec contributes nothing — the
device-mapping result (including the trace of host filesystem existence
checks and identity lookups, so none is ever performed for the disabled
spec) and the volume arguments are identical with and without it. -/
theorem c6_disabled_excluded (dryRun : Bool) (fs : String → Bool)
    (udev : String → Option (Nat × String)) (inv : List String) (home : String)
    (pre post : List DeviceConfig) (d : DeviceConfig)
    (vpre vpost : List VolumeConfig) (v : VolumeConfig)
    (hd : d.enabled = false) (hv : v.enabled = false) :
    map_devices dryRun fs udev inv (pre ++ d :: post)
        = map_devices dryRun fs udev inv (pre ++ post)
    ∧ build_volume_args home (vpre ++ v :: vpost) = build_volume_args home (vpre ++ vpost) := by
  constructor
  · unfold map_devices
    rw [map_devices_loop_disabled fs udev inv d hd pre post]
  · simp [build_volume_args, List.flatMap_append, List.flatMap_cons, hv]

/-- C6 witness: a concrete disabled device and a concrete disabled volume
contribute nothing. -/
theorem c6_disabled_excluded_witness :
    map_devices false (fun _ => true) (fun _ => none) []
        [{ name := "cam", path := some "/dev/video0", enabled := false }]
      = map_devices false (fun _ => true) (fun _ => none) [] []
    ∧ build_volume_args "/home/u"
        [{ source := "~/x", target := "/x", enabled := false }]
      = build_volume_args "/home/u" [] :=
  c6_disabled_excluded false (fun _ => true) (fun _ => none) [] "/home/u" [] []
    { name := "cam", path := some "/dev/video0", enabled := false } [] []
    { source := "~/x", target := "/x", enabled := false } rfl rfl

/-! ### USB matcher -/

/-- The matcher loop returns the first node of the inventory satisfying
all supplied filters. -/
theorem find_run_snd (info : String → List (String × String)) (v p : String)
    (iface ser : Option String) (nodes : List String) :
    (find_by_usb_id_run info v p iface ser nodes).2
      = nodes.find? (matchesAll info v p iface ser) := by
  induction nodes with
  | nil => rfl
  | cons n rest ih =>
      rcases iface with _ | i
      · rcases ser with _ | s
        · cases hv : (dictGet (info n) "ID_VENDOR_ID" == some v) <;>
            cases hm : (dictGet (info n) "ID_MODEL_ID" == some p) <;>
              simp [find_by_usb_id_run, List.find?, matchesAll, hv, hm, ih]
        · cases hv : (dictGet (info n) "ID_VENDOR_ID" == some v) <;>
            cases hm : (dictGet (info n) "ID_MODEL_ID" == some p) <;>
              cases hs : (dictGet (info n) "ID_SERIAL" == some s) <;>
                simp [find_by_usb_id_run, List.find?, matchesAll, hv, hm, hs, ih]
      · rcases ser with _ | s
        · cases hv : (dictGet (info n) "ID_VENDOR_ID" == some v) <;>
            cases hm : (dictGet (info n) "ID_MODEL_ID" == some p) <;>
              cases hi : (dictGet (info n) "ID_USB_INTERFACE_NUM" == some i) <;>
                simp [find_by_usb_id_run, List.find?, matchesAll, hv, hm, hi, ih]
        · cases hv : (dictGet (info n) "ID_VENDOR_ID" == some v) <;>
            cases hm : (dictGet (info n) "ID_MODEL_ID" == some p) <;>
              cases hi : (dictGet (info n) "ID_USB_INTERFACE_NUM" == some i) <;>
                cases hs : (dictGet (info n) "ID_SERIAL" == some s) <;>
                  simp [find_by_usb_id_run, List.find?, matchesAll, hv, hm, hi, hs, ih]

/-- Sorting a two-element inventory whose second element strictly
precedes the first. -/
theorem scan_pair (a b : String) (hab : strLeB b a = false) :
    scan_tty_devices [b, a] = [a, b] := by
  simp [scan_tty_devices, sortStrings, insertSorted, hab]

/-- C4: the matcher traverses the lexicographically sorted inventory and
returns the first node matching vendor and product ids and every supplied
optional filter (`List.find?` of the match predicate), returning `none`
exactly when no node satisfies all supplied filters; and for two nodes
with identical vendor/product ids but different interface numbers,
requesting the second node's interface returns exactly that node while
omitting the filter returns the first in sorted order. -/
theorem c4_matcher_first_match (udev : String → Option (Nat × String)) (v p : String)
    (iface ser : Option String) (raw : List String) :
    (find_by_usb_id (get_device_info udev) v p iface ser (scan_tty_devices raw)
        = (scan_tty_devices raw).find? (matchesAll (get_device_info udev) v p iface ser))
    ∧ (find_by_usb_id (get_device_info udev) v p iface ser (scan_tty_devices raw) = none
        ↔ ∀ n ∈ scan_tty_devices raw,
            matchesAll (get_device_info udev) v p iface ser n = false)
    ∧ (∀ a b ia ib, strLeB b a = false →
        dictGet (get_device_info udev a) "ID_VENDOR_ID" = some v →
        dictGet (get_device_info udev a) "ID_MODEL_ID" = some p →
        dictGet (get_device_info udev a) "ID_USB_INTERFACE_NUM" = some ia →
        dictGet (get_device_info udev b) "ID_VENDOR_ID" = some v →
        dictGet (get_device_info udev b) "ID_MODEL_ID" = some p →
        dictGet (get_device_info udev b) "ID_USB_INTERFACE_NUM" = some ib →
        ia ≠ ib →
        find_by_usb_id (get_device_info udev) v p (some ib) none (scan_tty_devices [b, a])
            = some b
        ∧ find_by_usb_id (get_device_info udev) v p none none (scan_tty_devices [b, a])
            = some a) := by
  refine ⟨find_run_snd _ _ _ _ _ _, ?_, ?_⟩
  · rw [find_by_usb_id, find_run_snd, List.find?_eq_none]
    constructor
    · intro h n hn
      simpa using h n hn
    · intro h n hn
      simp [h n hn]
  · intro a b ia ib hab ha1 ha2 ha3 hb1 hb2 hb3 hne
    have hmA2 : matchesAll (get_device_info udev) v p (some ib) none a = false := by
      simp [matchesAll, ha1, ha2, ha3, hne]
    have hmB2 : matchesAll (get_device_info udev) v p (some ib) none b = true := by
      simp [matchesAll, hb1, hb2, hb3]
    have hmA0 : matchesAll (get_device_info udev) v p none none a = true := by
      simp [matchesAll, ha1, ha2]
    constructor
    · rw [find_by_usb_id, find_run_snd, scan_pair a b hab,
        List.find?_cons_of_neg _ (by simp [hmA2]), List.find?_cons_of_pos _ hmB2]
    · rw [find_by_usb_id, find_run_snd, scan_pair a b hab,
        List.find?_cons_of_pos _ hmA0]

/-- C4 witness: two inventory nodes sharing vendor/product `10c4:ea60`
with interface numbers `00` and `01`; the interface filter `01` selects
`/dev/ttyACM1`, no filter selects `/dev/ttyACM0`, the first in sorted
order. -/
theorem c4_matcher_witness :
    find_by_usb_id
        (get_device_info (fun n =>
          if n == "/dev/ttyACM0" then
            some (0, "ID_VENDOR_ID=10c4\nID_MODEL_ID=ea60\nID_USB_INTERFACE_NUM=00")
          else if n == "/dev/ttyACM1" then
            some (0, "ID_VENDOR_ID=10c4\nID_MODEL_ID=ea60\nID_USB_INTERFACE_NUM=01")
          else none))
        "10c4" "ea60" (some "01") none
        (scan_tty_devices ["/dev/ttyACM1", "/dev/ttyACM0"]) = some "/dev/ttyACM1"
    ∧ find_by_usb_id
        (get_device_info (fun n =>
          if n == "/dev/ttyACM0" then
            some (0, "ID_VENDOR_ID=10c4\nID_MODEL_ID=ea60\nID_USB_INTERFACE_NUM=00")
          else if n == "/dev/ttyACM1" then
            some (0, "ID_VENDOR_ID=10c4\nID_MODEL_ID=ea60\nID_USB_INTERFACE_NUM=01")
          else none))
        "10c4" "ea60" none none
        (scan_tty_devices ["/dev/ttyACM1", "/dev/ttyACM0"]) = some "/dev/ttyACM0" :=
  (c4_matcher_first_match
      (fun n =>
        if n == "/dev/ttyACM0" then
          some (0, "ID_VENDOR_ID=10c4\nID_MODEL_ID=ea60\nID_USB_INTERFACE_NUM=00")
        else if n == "/dev/ttyACM1" then
          some (0, "ID_VENDOR_ID=10c4\nID_MODEL_ID=ea60\nID_USB_INTERFACE_NUM=01")
        else none)
      "10c4" "ea60" none none []).2.2
    "/dev/ttyACM0" "/dev/ttyACM1" "00" "01"
    (by decide) (by decide) (by decide) (by decide) (by decide) (by decide) (by decide)
    (by decide)

/-! ### Network flag emission -/

/-- A string containing a colon is never the token `--network`. -/
theorem ne_network_of_colon (s : String) (h : ':' ∈ s.data) : s ≠ "--network" := by
  intro he
  rw [he] at h
  exact absurd h (by decide)

/-- A string with a prefix longer than 9 characters is never the token
`--network`. -/
theorem long_prefix_ne_network (q s : String) (hq : 9 < q.length) : q ++ s ≠ "--network" := by
  intro he
  have hl := congrArg String.length he
  rw [String.length_append] at hl
  have h9 : ("--network" : String).length = 9 := rfl
  rw [h9] at hl
  omega

/-- A string starting with `DISPLAY=` is never the token `--network`. -/
theorem display_prefix_ne_network (s : String) : ("DISPLAY=" ++ s) ≠ "--network" := by
  intro he
  have hd := congrArg String.data he
  rw [String.data_append] at hd
  have h1 : ("DISPLAY=" : String).data = ['D', 'I', 'S', 'P', 'L', 'A', 'Y', '='] := rfl
  have h2 : ("--network" : String).data = ['-', '-', 'n', 'e', 't', 'w', 'o', 'r', 'k'] := rfl
  rw [h1, h2] at hd
  have hh := congrArg List.head? hd
  simp only [List.cons_append, List.head?_cons, Option.some.injEq] at hh
  exact absurd hh (by decide)

/-- The environment arguments never contain the token `--network`. -/
theorem network_not_in_env_args (envDisplay : Option String) (uid : Nat)
    (e : EnvironmentConfig) : "--network" ∉ build_environment_args envDisplay uid e := by
  intro hmem
  simp only [build_environment_args, List.mem_cons, List.not_mem_nil, or_false] at hmem
  rcases hmem with h | h | h | h | h | h | h | h
  all_goals first
    | exact absurd h (by decide)
    | exact absurd h.symm (long_prefix_ne_network _ _ (by decide))
    | exact absurd h.symm (display_prefix_ne_network _)

/-- The volume arguments never contain the token `--network`. -/
theorem network_not_in_volume_args (home : String) (volumes : List VolumeConfig) :
    "--network" ∉ build_volume_args home volumes := by
  induction volumes with
  | nil => simp [build_volume_args]
  | cons v rest ih =>
      simp only [build_volume_args, List.flatMap_cons] at ih ⊢
      cases hv : v.enabled
      · simpa [hv] using ih
      · simp only [hv, if_true]
        intro hmem
        rcases List.mem_append.mp hmem with h1 | h2
        · rcases List.mem_cons.mp h1 with h | h
          · exact absurd h (by decide)
          · rcases List.mem_cons.mp h with h | h
            · refine absurd h.symm (ne_network_of_colon _ ?_)
              have hc : (":" : String).data = [':'] := rfl
              simp [String.data_append, hc]
            · simp at h
        · exact ih h2

/-- A mapped triple with a truthy node carries a device-argument string
containing a colon. -/
theorem step_truthy_colon (fs : String → Bool) (udev : String → Option (Nat × String))
    (inv : List String) (d : DeviceConfig)
    (ht : strTruthy (map_device_step fs udev inv d).entry.2.1 = true) :
    ':' ∈ (map_device_step fs udev inv d).entry.2.2.data := by
  have hc : (":" : String).data = [':'] := rfl
  have hc2 : (":rw" : String).data = [':', 'r', 'w'] := rfl
  unfold map_device_step at ht ⊢
  by_cases husb : d.is_usb_device = true
  · simp only [husb, if_true] at ht ⊢
    cases hval : (map_usb_device_run (get_device_info udev) inv d).2 with
    | none => simp [hval, strTruthy] at ht
    | some tty =>
        cases hne : tty == "" with
        | false => simp [hval, strTruthy, hne, String.data_append, hc, hc2]
        | true => simp [hval, strTruthy, hne] at ht
  · rw [Bool.not_eq_true] at husb
    simp only [husb, Bool.false_eq_true, if_false] at ht ⊢
    cases hpath : d.path with
    | none => simp [hpath, strTruthy] at ht
    | some pa =>
        simp only [hpath, Option.getD_some] at ht ⊢
        cases hpe : pa == "" with
        | true => simp [strTruthy, hpe] at ht
        | false =>
            cases hfs : fs pa with
            | false => simp [strTruthy, hpe, hfs] at ht
            | true => simp [strTruthy, hpe, hfs, String.data_append, hc]

/-- The `--device` pairs collected from the mapping loop never contain
the token `--network`. -/
theorem network_not_in_device_args (fs : String → Bool)
    (udev : String → Option (Nat × String)) (inv : List String)
    (devices : List DeviceConfig) :
    "--network" ∉ device_args_of (map_devices_loop fs udev inv devices).mapped := by
  induction devices with
  | nil => simp [map_devices_loop, device_args_of]
  | cons d rest ih =>
      cases hd : d.enabled
      · simpa [map_devices_loop, hd] using ih
      · simp only [map_devices_loop, hd, if_true]
        simp only [device_args_of, List.flatMap_cons] at ih ⊢
        intro hmem
        rcases List.mem_append.mp hmem with h1 | h2
        · cases htr : strTruthy (map_device_step fs udev inv d).entry.2.1
          · simp [htr] at h1
          · simp only [htr, if_true] at h1
            rcases List.mem_cons.mp h1 with h | h
            · exact absurd h (by decide)
            · rcases List.mem_cons.mp h with h | h
              · exact absurd h.symm (ne_network_of_colon _ (step_truthy_colon fs udev inv d htr))
              · simp at h
        · exact ih h2

/-- A successful `_build_device_args` yields exactly the loop's truthy
`--device` pairs. -/
theorem build_device_args_ok (dryRun : Bool) (fs : String → Bool)
    (udev : String → Option (Nat × String)) (inv : List String)
    (devices : List DeviceConfig) (devArgs : List String)
    (h : build_device_args dryRun fs udev inv devices = Except.ok devArgs) :
    devArgs = device_args_of (map_devices_loop fs udev inv devices).mapped := by
  unfold build_device_args map_devices at h
  by_cases hE : (map_devices_loop fs udev inv devices).failed.isEmpty = true
  · simp only [hE, if_true, Except.map, Except.ok.injEq] at h
    exact h.symm
  · rw [Bool.not_eq_true] at hE
    cases hdr : dryRun
    · simp [hE, hdr, Except.map] at h
    · simp only [hE, hdr, Bool.false_eq_true, if_false, if_true, Except.map,
        Except.ok.injEq] at h
      exact h.symm

/-- A token differing from the flag and from any truthy payload is absent
from an optional-flag argument pair. -/
theorem not_mem_optFlagArgs (tk f : String) (o : Option String)
    (hf : tk ≠ f) (ho : ∀ s, o = some s → tk ≠ s) : tk ∉ optFlagArgs f o := by
  intro hm
  cases o with
  | none => simp [optFlagArgs] at hm
  | some s =>
      simp only [optFlagArgs] at hm
      split_ifs at hm
      · simp at hm
      · rcases List.mem_cons.mp hm with h | h
        · exact hf h
        · rcases List.mem_cons.mp h with h | h
          · exact ho s rfl h
          · simp at h

/-- C5 (amended): provided the container name, image reference and
enabled GPU option tokens are not themselves the literal token
`--network`, the assembled command contains no `--network` token when the
configured network mode is the default `bridge` or the empty string
(Python truthiness drops the flag for an empty mode), and for any other
mode value `v` it contains exactly one `--network v` pair. -/
theorem c5_network_flag_amended (dryRun : Bool) (home : String) (envDisplay : Option String)
    (uid : Nat) (fs : String → Bool) (udev : String → Option (Nat × String)) (inv : List String)
    (res : ResourceConfig) (envc : EnvironmentConfig) (volumes : List VolumeConfig)
    (devices : List DeviceConfig) (cname iname : String) (cmd : List String)
    (hname : cname ≠ "--network") (himg : iname ≠ "--network")
    (hgpu : res.gpu_enabled = true → "--network" ∉ pySplit res.gpu_options)
    (hok : build_docker_command dryRun home envDisplay uid fs udev inv res envc volumes
        devices cname iname = Except.ok cmd) :
    ((res.network = "bridge" ∨ res.network = "") → "--network" ∉ cmd)
    ∧ (res.network ≠ "bridge" → res.network ≠ "" →
        ∃ l1 l2, cmd = l1 ++ ["--network", res.network] ++ l2
          ∧ "--network" ∉ l1 ∧ "--network" ∉ l2) := by
  unfold build_docker_command at hok
  cases hda : build_device_args dryRun fs udev inv devices with
  | error err => rw [hda] at hok; cases hok
  | ok devArgs =>
      rw [hda] at hok
      injection hok with hcmd
      have hbase : "--network" ∉ (["docker", "run", "-d"] : List String) := by decide
      have hnm : "--network" ∉ optFlagArgs "--name" (some cname) :=
        not_mem_optFlagArgs _ _ _ (by decide) (fun s hs => by
          injection hs with hs; rw [← hs]; exact fun h => hname h.symm)
      have hpriv : "--network" ∉ (if res.privileged then ["--privileged"] else []) := by
        cases res.privileged <;> simp
      have hgpuA : "--network" ∉ gpuArgs (if res.gpu_enabled then some res.gpu_options else none) := by
        cases hge : res.gpu_enabled
        · simp [gpuArgs]
        · simp only [hge, if_true, gpuArgs]
          split_ifs
          · simp
          · exact hgpu hge
      have hvol := network_not_in_volume_args home volumes
      have hdevA : "--network" ∉ devArgs := by
        rw [build_device_args_ok dryRun fs udev inv devices devArgs hda]
        exact network_not_in_device_args fs udev inv devices
      have henv := network_not_in_env_args envDisplay uid envc
      have himgA : "--network" ∉ imageArgs (some iname) := by
        simp only [imageArgs]
        split_ifs
        · simp
        · intro hm
          rcases List.mem_cons.mp hm with h | h
          · exact himg h.symm
          · exact absurd h (by decide)
      constructor
      · intro hb
        have hnet : optFlagArgs "--network"
            (if res.network == "bridge" then none else some res.network) = [] := by
          rcases hb with hb | hb <;> simp [optFlagArgs, hb]
        rw [← hcmd, DockerCommand.build_eq]
        simp only [hnet, List.append_nil]
        simp only [List.mem_append, not_or]
        exact ⟨⟨⟨⟨⟨⟨⟨hbase, hnm⟩, hpriv⟩, hgpuA⟩, hvol⟩, hdevA⟩, henv⟩, himgA⟩
      · intro hb1 hb2
        have hnet : optFlagArgs "--network"
            (if res.network == "bridge" then none else some res.network)
            = ["--network", res.network] := by
          simp [optFlagArgs, hb1, hb2]
        refine ⟨["docker", "run", "-d"] ++ optFlagArgs "--name" (some cname),
          (if res.privileged then ["--privileged"] else [])
            ++ gpuArgs (if res.gpu_enabled then some res.gpu_options else none)
            ++ build_volume_args home volumes ++ devArgs
            ++ build_environment_args envDisplay uid envc ++ imageArgs (some iname),
          ?_, ?_, ?_⟩
        · rw [← hcmd, DockerCommand.build_eq, hnet]
          simp [List.append_assoc]
        · simp only [List.mem_append, not_or]
          exact ⟨hbase, hnm⟩
        · simp only [List.mem_append, not_or]
          exact ⟨⟨⟨⟨⟨hpriv, hgpuA⟩, hvol⟩, hdevA⟩, henv⟩, himgA⟩

/-- C5 counterexample: with the network mode configured as the empty
string — a value other than `bridge` — the assembled command contains no
`--network` token at all (Python truthiness drops the flag), not exactly
one `--network` pair as claimed. -/
theorem c5_counterexample :
    (build_docker_command false "" none 0 (fun _ => false) (fun _ => none) []
        { network := "" } {} [] [] "c" "i").map (fun cmd => cmd.count "--network")
      = Except.ok 0
    ∧ ("" : String) ≠ "bridge" :=
  ⟨rfl, by decide⟩

/-- C5 witness: a concrete non-bridge, non-empty network mode yields
exactly one `--network host` pair. -/
theorem c5_network_flag_witness :
    build_docker_command true "" none 0 (fun _ => false) (fun _ => none) []
        { network := "host" } {} [] [] "c" "i"
      = Except.ok ["docker", "run", "-d", "--name", "c", "--network", "host", "-e",
          "ROS_DOMAIN_ID=0", "-e", "ROS_LOCALHOST_ONLY=0", "-e", "DISPLAY=:0", "-e",
          "PULSE_SERVER=unix:/run/user/0/pulse/native", "i", "tail", "-f", "/dev/null"]
    ∧ ∃ l1 l2,
        (["docker", "run", "-d", "--name", "c", "--network", "host", "-e",
          "ROS_DOMAIN_ID=0", "-e", "ROS_LOCALHOST_ONLY=0", "-e", "DISPLAY=:0", "-e",
          "PULSE_SERVER=unix:/run/user/0/pulse/native", "i", "tail", "-f", "/dev/null"]
          : List String)
          = l1 ++ ["--network", "host"] ++ l2
        ∧ "--network" ∉ l1 ∧ "--network" ∉ l2 :=
  ⟨rfl,
   (c5_network_flag_amended true "" none 0 (fun _ => false) (fun _ => none) []
      { network := "host" } {} [] [] "c" "i"
      ["docker", "run", "-d", "--name", "c", "--network", "host", "-e",
        "ROS_DOMAIN_ID=0", "-e", "ROS_LOCALHOST_ONLY=0", "-e", "DISPLAY=:0", "-e",
        "PULSE_SERVER=unix:/run/user/0/pulse/native", "i", "tail", "-f", "/dev/null"]
      (by decide) (by decide) (fun h => nomatch h) rfl).2 (by decide) (by decide)⟩

/-! ### Environment parsing ignores ROS values -/

/-- C10: `parse_environment` reads no ROS keys, so the parsed
configuration carries the dataclass defaults 0/0, the environment
arguments open with exactly `-e ROS_DOMAIN_ID=0 -e ROS_LOCALHOST_ONLY=0`,
and every successfully assembled command contains that token run —
whatever the configuration document declared for those fields. -/
theorem c10_ros_env_defaults (raw : Option RawEnvironment) (envDisplay : Option String)
    (uid : Nat) (dryRun : Bool) (home : String) (fs : String → Bool)
    (udev : String → Option (Nat × String)) (inv : List String) (res : ResourceConfig)
    (volumes : List VolumeConfig) (devices : List DeviceConfig) (cname iname : String) :
    (parse_environment raw).ros_domain_id = 0
    ∧ (parse_environment raw).ros_localhost_only = 0
    ∧ build_environment_args envDisplay uid (parse_environment raw)
        = ["-e", "ROS_DOMAIN_ID=0", "-e", "ROS_LOCALHOST_ONLY=0",
           "-e", "DISPLAY=" ++ (parse_environment raw).get_display envDisplay,
           "-e", "PULSE_SERVER=" ++ (parse_environment raw).get_pulse_server uid]
    ∧ (∀ cmd, build_docker_command dryRun home envDisplay uid fs udev inv res
          (parse_environment raw) volumes devices cname iname = Except.ok cmd →
        ∃ l1 l2, cmd = l1 ++ ["-e", "ROS_DOMAIN_ID=0", "-e", "ROS_LOCALHOST_ONLY=0"] ++ l2) := by
  have henv : build_environment_args envDisplay uid (parse_environment raw)
      = ["-e", "ROS_DOMAIN_ID=0", "-e", "ROS_LOCALHOST_ONLY=0",
         "-e", "DISPLAY=" ++ (parse_environment raw).get_display envDisplay,
         "-e", "PULSE_SERVER=" ++ (parse_environment raw).get_pulse_server uid] := rfl
  refine ⟨rfl, rfl, henv, ?_⟩
  intro cmd hok
  unfold build_docker_command at hok
  cases hda : build_device_args dryRun fs udev inv devices with
  | error err => rw [hda] at hok; cases hok
  | ok devArgs =>
      rw [hda] at hok
      injection hok with hcmd
      refine ⟨["docker", "run", "-d"] ++ optFlagArgs "--name" (some cname)
          ++ optFlagArgs "--network"
              (if res.network == "bridge" then none else some res.network)
          ++ (if res.privileged then ["--privileged"] else [])
          ++ gpuArgs (if res.gpu_enabled then some res.gpu_options else none)
          ++ build_volume_args home volumes ++ devArgs,
        ["-e", "DISPLAY=" ++ (parse_environment raw).get_display envDisplay,
         "-e", "PULSE_SERVER=" ++ (parse_environment raw).get_pulse_server uid]
          ++ imageArgs (some iname), ?_⟩
      rw [← hcmd, DockerCommand.build_eq]
      simp only [henv]
      simp [List.append_assoc]

/-- C10 witness: a document declaring ROS domain id 7 and localhost-only
1 still assembles a command carrying `-e ROS_DOMAIN_ID=0 -e
ROS_LOCALHOST_ONLY=0`. -/
theorem c10_ros_env_defaults_witness :
    ∃ l1 l2, (["docker", "run", "-d", "--name", "c", "-e", "ROS_DOMAIN_ID=0", "-e",
        "ROS_LOCALHOST_ONLY=0", "-e", "DISPLAY=:0", "-e",
        "PULSE_SERVER=unix:/run/user/0/pulse/native", "i", "tail", "-f", "/dev/null"]
        : List String)
      = l1 ++ ["-e", "ROS_DOMAIN_ID=0", "-e", "ROS_LOCALHOST_ONLY=0"] ++ l2 :=
  (c10_ros_env_defaults (some { ros_domain_id := some 7, ros_localhost_only := some 1 })
      none 0 false "" (fun _ => false) (fun _ => none) [] {} [] [] "c" "i").2.2.2
    ["docker", "run", "-d", "--name", "c", "-e", "ROS_DOMAIN_ID=0", "-e",
      "ROS_LOCALHOST_ONLY=0", "-e", "DISPLAY=:0", "-e",
      "PULSE_SERVER=unix:/run/user/0/pulse/native", "i", "tail", "-f", "/dev/null"] rfl
